import Mathlib

/-!
Verification development for the Real-Time Multilingual Query Handler.

The repository is a small Python system: a Streamlit interactive application
(src/app.py), a FastAPI backend service (src/backend/server.py), a translation
engine (src/backend/translation_engine.py), a reply generator
(src/backend/response_generator.py) and a JSON-file evaluation store
(src/utils/evaluation.py).  This file gives a shallow embedding of those
components and proves properties of the embedding.

Modelling conventions:
- The evaluation log file is modelled by `Option FileContent` (`none` = the
  file does not exist).  A file content is either a serialized JSON document
  (carrying the value and the indent used by json.dumps, which together
  determine the concrete string) or unparseable text abstracted by a tag.
- External effects (HTTP calls, the OpenAI chat-completion API, the langdetect
  library, optional-module import probing) are oracle parameters: the embedded
  functions receive the outcome of the effect and are proved about for every
  outcome.
- Python exceptions become `Except String`; Python float literals that are
  only passed through as configuration (temperatures) are modelled as `Rat`,
  which is exact for the literals 0.0 and 0.2 that occur in the source.
-/

instance {ε α : Type} [DecidableEq ε] [DecidableEq α] : DecidableEq (Except ε α) := fun a b =>
  match a, b with
  | .ok x, .ok y =>
    if h : x = y then .isTrue (by rw [h]) else .isFalse (by intro hh; cases hh; exact h rfl)
  | .error x, .error y =>
    if h : x = y then .isTrue (by rw [h]) else .isFalse (by intro hh; cases hh; exact h rfl)
  | .ok _, .error _ => .isFalse (by intro hh; cases hh)
  | .error _, .ok _ => .isFalse (by intro hh; cases hh)

/-- Boolean prefix test on character lists (kernel-reducible replacement for
String.startsWith, which models the Python str.startswith). -/
def listStartsWith : List Char → List Char → Bool
  | _, [] => true
  | [], _ :: _ => false
  | a :: as, b :: bs => a == b && listStartsWith as bs

/-- Model of the Python str.startswith. -/
def pyStartsWith (s p : String) : Bool := listStartsWith s.data p.data

/-- Whitespace stripping on character lists. -/
def stripChars (l : List Char) : List Char :=
  ((l.dropWhile Char.isWhitespace).reverse.dropWhile Char.isWhitespace).reverse

/-- Model of the Python str.strip (remove leading and trailing whitespace). -/
def pyStrip (s : String) : String := ⟨stripChars s.data⟩

/-- Boolean substring test: some tail of s starts with sub (model of the
Python `sub in s`). -/
def strContainsSub (s sub : String) : Bool :=
  s.data.tails.any (fun t => listStartsWith t sub.data)

/-- An evaluation entry as assembled by src/app.py lines 271-278: input text,
detected language code, translated text, suggested reply, rating, comments. -/
structure Entry where
  input : String
  detected_language : String
  translated : String
  suggested : String
  rating : Int
  comments : String
deriving DecidableEq

/-- A JSON value as relevant to the evaluation store: an array of evaluation
entries, or any other JSON value (dict, string, number, ...) abstracted by a
tag.  The store only ever writes arrays of entries; a non-array value makes
the subsequent Python `data.append` raise AttributeError. -/
inductive JValue where
  | list (l : List Entry)
  | other (tag : String)
deriving DecidableEq

/-- Content of a file on disk: either the serialized form of a JSON value
(the pair of value and json.dumps indent determines the concrete string), or
text that is not valid JSON, abstracted by a tag. -/
inductive FileContent where
  | jsonDoc (v : JValue) (indent : Option Nat)
  | invalid (tag : String)
deriving DecidableEq

/-- Model of Python json.loads on a file content: succeeds exactly on valid
JSON documents, raises (here: `Except.error`) on anything else. -/
def json_loads : FileContent → Except String JValue
  | .jsonDoc v _ => .ok v
  | .invalid tag => .error tag

/-- Model of Python json.dumps with an indent argument. -/
def json_dumps (v : JValue) (indent : Option Nat) : FileContent :=
  .jsonDoc v indent

/-- Fixed path of the primary evaluation store (src/utils/evaluation.py line 5). -/
def DATA_FILE : String := "data/evaluations.json"

/-- Fixed path of the interactive application fallback store (src/app.py line 93). -/
def LOCAL_DATA_FILE : String := "data/evaluations_local.json"

/-- src/utils/evaluation.py, save_evaluation (lines 10-18): read the existing
file if present, swallowing only json.loads failures (the try block wraps only
the parse); append the entry; rewrite the whole file with json.dumps(data,
indent=2).  If the file parses to a non-list JSON value, the Python
`data.append(entry)` raises outside the try and the error propagates. -/
def save_evaluation (file : Option FileContent) (entry : Entry) :
    Except String FileContent :=
  let data : Except String (List Entry) :=
    match file with
    | none => .ok []
    | some fc =>
      match json_loads fc with
      | .ok (.list l) => .ok l
      | .ok (.other _) => .error "AttributeError: append on non-list JSON value"
      | .error _ => .ok []
  match data with
  | .ok l => .ok (json_dumps (.list (l ++ [entry])) (some 2))
  | .error e => .error e

/-- src/utils/evaluation.py, load_evaluations (lines 21-24): empty list when
the file does not exist, otherwise json.loads of the file text with no
exception handling (a parse failure propagates). -/
def load_evaluations (file : Option FileContent) : Except String JValue :=
  match file with
  | none => .ok (.list [])
  | some fc => json_loads fc

/-- src/app.py, save_evaluation_local fallback branch (lines 90-102): the body
executed when importing utils.evaluation fails.  Same algorithm as
save_evaluation (read, swallow parse failures, append, rewrite with indent=2),
targeting data/evaluations_local.json instead. -/
def save_evaluation_local_fallback (file : Option FileContent) (entry : Entry) :
    Except String FileContent :=
  let data : Except String (List Entry) :=
    match file with
    | none => .ok []
    | some fc =>
      match json_loads fc with
      | .ok (.list l) => .ok l
      | .ok (.other _) => .error "AttributeError: append on non-list JSON value"
      | .error _ => .ok []
  match data with
  | .ok l => .ok (json_dumps (.list (l ++ [entry])) (some 2))
  | .error e => .error e

/-- Saving a list of entries sequentially through save_evaluation, starting
from a given file state; stops at the first propagated error. -/
def saveSeq (file : Option FileContent) : List Entry → Except String (Option FileContent)
  | [] => .ok file
  | e :: es =>
    match save_evaluation file e with
    | .ok fc => saveSeq (some fc) es
    | .error err => .error err

/-- Truthiness of the OPENAI_API_KEY environment value: the Python guard
`if not OPENAI_API_KEY` fires when the variable is unset (none, via os.getenv
in the engine) or the empty string (the default in src/app.py line 11). -/
def keyMissing : Option String → Bool
  | none => true
  | some s => s == ""

/-- One role-tagged message of a chat-completion request. -/
structure ChatMessage where
  role : String
  content : String
deriving DecidableEq

/-- A chat-completion request as built by the source: model identifier,
messages, sampling temperature (the exact literals 0.0 and 0.2, modelled as
Rat) and output token cap. -/
structure ChatRequest where
  model : String
  messages : List ChatMessage
  temperature : Rat
  max_tokens : Nat
deriving DecidableEq

/-- Model-identifier heuristic shared by every call site:
gpt-4o-mini when the client library exposes a Model attribute, gpt-4o
otherwise (the hasattr outcome is the Bool parameter). -/
def chooseModel (hasModelAttr : Bool) : String :=
  if hasModelAttr then "gpt-4o-mini" else "gpt-4o"

/-- src/backend/translation_engine.py lines 26-29: the translation prompt of
the engine (adjacent Python string literals concatenate at parse time). -/
def engine_translate_prompt (text : String) : String :=
  "You are a high quality translator. Translate the text below into clear natural English and output ONLY the translation.\n\nText:\n" ++
    (text ++ "\n\nTranslate into English:")

/-- src/backend/translation_engine.py lines 30-35: the chat-completion request
issued by translate_openai. -/
def engine_translate_request (hasModelAttr : Bool) (text : String) : ChatRequest :=
  ⟨chooseModel hasModelAttr, [⟨"user", engine_translate_prompt text⟩], 0, 1024⟩

/-- src/app.py lines 112-116: the translation prompt of the interactive
application. -/
def app_translate_prompt (text : String) : String :=
  "You are a translator. Translate the following text into clear natural English. Output ONLY the translation.\n\nText:\n" ++
    (text ++ "\n\nTranslate into English:")

/-- src/app.py lines 117-122: the chat-completion request issued by
translate_with_openai. -/
def app_translate_request (hasModelAttr : Bool) (text : String) : ChatRequest :=
  ⟨chooseModel hasModelAttr, [⟨"user", app_translate_prompt text⟩], 0, 1024⟩

/-- src/app.py lines 135-138: the reply prompt of the interactive
application. -/
def app_reply_prompt (translated_text : String) : String :=
  "You are an empathetic customer support agent. Using the message below, write a concise, polite reply (3-6 sentences). Ask clarifying questions if needed and suggest next steps.\n\nCustomer message:\n" ++
    (translated_text ++ "\n\nReply:")

/-- src/app.py lines 140-145: the chat-completion request issued by
generate_reply_with_openai, at the caller-supplied temperature. -/
def app_reply_request (hasModelAttr : Bool) (translated_text : String)
    (temperature : Rat) : ChatRequest :=
  ⟨chooseModel hasModelAttr, [⟨"user", app_reply_prompt translated_text⟩], temperature, 256⟩

/-- src/backend/translation_engine.py lines 13-17, translate_local: identity
passthrough. -/
def translate_local (text : String) : String := text

/-- src/backend/translation_engine.py lines 21-36, translate_openai: raises
when no key is configured, otherwise issues the request and returns the
trimmed first-choice content.  The llm oracle stands for the client call
together with first-choice extraction; its error case is any exception the
call raises, which this function does not catch. -/
def translate_openai (key : Option String) (hasModelAttr : Bool)
    (llm : ChatRequest → Except String String) (text : String) :
    Except String String :=
  if keyMissing key then .error "OpenAI key not configured"
  else
    match llm (engine_translate_request hasModelAttr text) with
    | .ok content => .ok (pyStrip content)
    | .error e => .error e

/-- Response body of the backend /translate endpoint. -/
structure TranslateResponse where
  translated_text : String
deriving DecidableEq

/-- src/backend/server.py lines 19-26, the /translate endpoint: try
translate_openai, and on any exception fall back silently to translate_local;
always respond with a translated_text body (total by construction). -/
def server_translate (key : Option String) (hasModelAttr : Bool)
    (llm : ChatRequest → Except String String) (text : String) :
    TranslateResponse :=
  match translate_openai key hasModelAttr llm text with
  | .ok t => ⟨t⟩
  | .error _ => ⟨translate_local text⟩

/-- Modelled from the spec: utils/prompts.py, which defines
CANNED_REPLY_TEMPLATE, is not present under src/.  Spec section 4.1 fixes one
canned-reply template string with a name placeholder and an excerpt
placeholder, substituted by string formatting.  The formatted result is
modelled as a function of the two placeholder values; the literal wording
around the placeholders is fixed but not given by the spec, so a fixed
representative wording stands for it. -/
def canned_reply_format (name excerpt : String) : String :=
  "Hello " ++ (name ++ (", thank you for reaching out about: " ++
    (excerpt ++ ". We will get back to you shortly.")))

/-- src/backend/response_generator.py lines 6-8, generate_local_reply: fill
the canned template with the name (the Python `name or \x22Customer\x22`
defaults the empty string) and the first 120 characters of the translated
text. -/
def generate_local_reply (translated_text : String) (name : String) : String :=
  canned_reply_format (if name = "" then "Customer" else name)
    (translated_text.take 120)

/-- src/app.py lines 53-65, the application translate_local wrapper: delegate
to the engine translate_local when its import succeeds, otherwise return the
input unchanged. -/
def app_translate_local (engineImportOk : Bool) (text : String) : String :=
  if engineImportOk then translate_local text else text

/-- src/app.py lines 67-82, the application generate_local_reply wrapper: try
the backend generator, then the canned template directly, then a last-resort
inline template. -/
def app_generate_local_reply (glrImportOk promptsImportOk : Bool)
    (translated_text name : String) : String :=
  if glrImportOk then generate_local_reply translated_text name
  else if promptsImportOk then
    canned_reply_format (if name = "" then "Customer" else name)
      (translated_text.take 120)
  else
    "Hi " ++ ((if name = "" then "Customer" else name) ++
      (", thanks for reaching out. We received your message: \"" ++
        (translated_text.take 120 ++
          "...\" We\x27ll get back within 24 hours.")))

/-- src/app.py lines 31-39, call_remote_translate: the oracle argument is the
outcome of the try block up to resp.json() (transport errors, raise_for_status
and body-parse failures are its error case; success carries the parsed JSON
object restricted to its string-valued fields).  On success the endpoint
result key is read with default empty string; any failure is wrapped in a
descriptive error. -/
def call_remote_translate
    (httpResult : Except String (List (String × String))) :
    Except String String :=
  match httpResult with
  | .ok fields => .ok ((fields.lookup "translated_text").getD "")
  | .error e => .error ("Remote translation failed: " ++ e)

/-- src/app.py lines 41-51, call_remote_response: same shape as
call_remote_translate with the reply result key. -/
def call_remote_response
    (httpResult : Except String (List (String × String))) :
    Except String String :=
  match httpResult with
  | .ok fields => .ok ((fields.lookup "reply").getD "")
  | .error e => .error ("Remote response generation failed: " ++ e)

/-- src/app.py lines 104-126, translate_with_openai: raise on a missing key,
otherwise issue the request and return the trimmed content, wrapping any
failure of the call in a descriptive error. -/
def translate_with_openai (key : Option String) (hasModelAttr : Bool)
    (llm : ChatRequest → Except String String) (text : String) :
    Except String String :=
  if keyMissing key then .error "OpenAI API key not configured."
  else
    match llm (app_translate_request hasModelAttr text) with
    | .ok content => .ok (pyStrip content)
    | .error e => .error ("OpenAI translation failed: " ++ e)

/-- src/app.py lines 128-148, generate_reply_with_openai: raise on a missing
key, otherwise issue the reply request at the given temperature and return the
trimmed content, wrapping failures.  The name argument of the source is not
used in the prompt. -/
def generate_reply_with_openai (key : Option String) (hasModelAttr : Bool)
    (llm : ChatRequest → Except String String) (translated_text : String)
    (_name : String) (temperature : Rat) : Except String String :=
  if keyMissing key then .error "OpenAI API key not configured."
  else
    match llm (app_reply_request hasModelAttr translated_text temperature) with
    | .ok content => .ok (pyStrip content)
    | .error e => .error ("OpenAI response generation failed: " ++ e)

/-- src/app.py lines 22-29, detect_language_local: the langdetect library is
an oracle (none = import fails); any detector failure yields the sentinel
unknown.  Total by construction. -/
def detect_language_local (lib : Option (String → Except String String))
    (text : String) : String :=
  match lib with
  | none => "unknown"
  | some detect =>
    match detect text with
    | .ok code => code
    | .error _ => "unknown"

/-- Operator-selected session settings of the interactive application
(src/app.py lines 152-171). -/
structure Settings where
  backend_choice : String
  translation_backend : String
  response_mode : String
  want_generate : Bool
  customer_name : String
  ai_temperature : Rat

/-- Outcomes of the external effects one form submission can perform. -/
structure Oracles where
  http_translate : Except String (List (String × String))
  http_response : Except String (List (String × String))
  llm : ChatRequest → Except String String
  engine_import_ok : Bool
  glr_import_ok : Bool
  prompts_import_ok : Bool
  langdetect : Option (String → Except String String)

/-- Strategy invocations observable during one form submission. -/
inductive Event where
  | translateRemoteCall
  | translateOpenAICall
  | translateLocalCall
  | replyRemoteCall
  | replyOpenAICall
  | replyCannedCall
deriving DecidableEq

/-- Whether an event is a reply-generation strategy invocation. -/
def Event.isReplyEvent : Event → Bool
  | .replyRemoteCall => true
  | .replyOpenAICall => true
  | .replyCannedCall => true
  | _ => false

/-- Result of the translation-resolution step of a submission. -/
structure TransResult where
  translated : String
  errMsg : Option String
  events : List Event

/-- src/app.py lines 189-217, step 2 of the submit handler: resolve the
translated text.  Remote backend first when selected, recording the remote
failure message before falling back per the translation preference; a raise
from translate_with_openai reaches the outer handler, which resets the
translated text to empty.  Every strategy invocation is recorded as an
event. -/
def resolve_translation (key : Option String) (hasModelAttr : Bool)
    (s : Settings) (o : Oracles) (incoming : String) : TransResult :=
  if pyStartsWith s.backend_choice "remote" then
    match call_remote_translate o.http_translate with
    | .ok t => ⟨t, none, [.translateRemoteCall]⟩
    | .error eRemote =>
      if s.translation_backend == "openai" && !(keyMissing key) then
        match translate_with_openai key hasModelAttr o.llm incoming with
        | .ok t => ⟨t, some ("Remote translation failed: " ++ eRemote),
            [.translateRemoteCall, .translateOpenAICall]⟩
        | .error e2 => ⟨"", some e2, [.translateRemoteCall, .translateOpenAICall]⟩
      else if s.translation_backend == "local" then
        ⟨app_translate_local o.engine_import_ok incoming,
          some ("Remote translation failed: " ++ eRemote),
          [.translateRemoteCall, .translateLocalCall]⟩
      else if !(keyMissing key) then
        match translate_with_openai key hasModelAttr o.llm incoming with
        | .ok t => ⟨t, some ("Remote translation failed: " ++ eRemote),
            [.translateRemoteCall, .translateOpenAICall]⟩
        | .error e2 => ⟨"", some e2, [.translateRemoteCall, .translateOpenAICall]⟩
      else
        ⟨app_translate_local o.engine_import_ok incoming,
          some ("Remote translation failed: " ++ eRemote),
          [.translateRemoteCall, .translateLocalCall]⟩
  else
    if s.translation_backend == "openai" && !(keyMissing key) then
      match translate_with_openai key hasModelAttr o.llm incoming with
      | .ok t => ⟨t, none, [.translateOpenAICall]⟩
      | .error e => ⟨"", some e, [.translateOpenAICall]⟩
    else
      ⟨app_translate_local o.engine_import_ok incoming, none, [.translateLocalCall]⟩

/-- src/app.py lines 227-252, step 5 of the submit handler: resolve the
suggested reply for a non-empty translated text.  A raise from
generate_reply_with_openai reaches the outer handler, which resets the
suggested reply to empty; the remote-response failure is caught by the inner
handler and triggers the fallback.  Returns the reply and the invocation
events. -/
def resolve_reply (key : Option String) (hasModelAttr : Bool) (s : Settings)
    (o : Oracles) (translated : String) : String × List Event :=
  if pyStartsWith s.response_mode "AI" ||
      s.response_mode == "AI-generated (if available)" then
    if pyStartsWith s.backend_choice "remote" then
      match call_remote_response o.http_response with
      | .ok r => (r, [.replyRemoteCall])
      | .error _ =>
        if !(keyMissing key) then
          match generate_reply_with_openai key hasModelAttr o.llm translated
              s.customer_name s.ai_temperature with
          | .ok r => (r, [.replyRemoteCall, .replyOpenAICall])
          | .error _ => ("", [.replyRemoteCall, .replyOpenAICall])
        else
          (app_generate_local_reply o.glr_import_ok o.prompts_import_ok
            translated s.customer_name, [.replyRemoteCall, .replyCannedCall])
    else
      if s.translation_backend == "openai" && !(keyMissing key) then
        match generate_reply_with_openai key hasModelAttr o.llm translated
            s.customer_name s.ai_temperature with
        | .ok r => (r, [.replyOpenAICall])
        | .error _ => ("", [.replyOpenAICall])
      else
        (app_generate_local_reply o.glr_import_ok o.prompts_import_ok
          translated s.customer_name, [.replyCannedCall])
  else
    (app_generate_local_reply o.glr_import_ok o.prompts_import_ok translated
      s.customer_name, [.replyCannedCall])

/-- Observable outcome of one form submission. -/
structure SubmitResult where
  detected_lang : String
  translated : String
  suggested : String
  events : List Event

/-- src/app.py lines 180-263, the submit handler: warn and stop on blank
input; otherwise detect the language, resolve the translation, and only when
the translated text is non-empty and a reply was requested resolve the
suggested reply.  The evaluation block (lines 265-283) is a separate control
modelled by save_evaluation_local_fallback and save_evaluation above. -/
def submit_process (key : Option String) (hasModelAttr : Bool) (s : Settings)
    (o : Oracles) (incoming : String) : SubmitResult :=
  if pyStrip incoming == "" then
    ⟨"unknown", "", "", []⟩
  else
    let detected := detect_language_local o.langdetect incoming
    let tr := resolve_translation key hasModelAttr s o incoming
    if tr.translated == "" then
      ⟨detected, tr.translated, "", tr.events⟩
    else if s.want_generate then
      let rp := resolve_reply key hasModelAttr s o tr.translated
      ⟨detected, tr.translated, rp.1, tr.events ++ rp.2⟩
    else
      ⟨detected, tr.translated, "", tr.events⟩

theorem saveSeq_valid_list (es : List Entry) :
    ∀ l : List Entry,
      saveSeq (some (.jsonDoc (.list l) (some 2))) es =
        .ok (some (.jsonDoc (.list (l ++ es)) (some 2))) := by
  induction es with
  | nil => intro l; simp [saveSeq]
  | cons e es ih =>
    intro l
    simp [saveSeq, save_evaluation, json_loads, json_dumps, ih (l ++ [e])]

/-- C1: saving N entries sequentially via save_evaluation, starting from a
store whose backing file does not exist, reaches a state from which
load_evaluations returns exactly those N entries in insertion order (for N = 1
this is the one-element round trip). -/
theorem C1_save_then_load_roundtrip (es : List Entry) :
    ∃ st : Option FileContent,
      saveSeq none es = .ok st ∧ load_evaluations st = .ok (.list es) := by
  cases es with
  | nil => exact ⟨none, rfl, rfl⟩
  | cons e es =>
    refine ⟨some (.jsonDoc (.list (e :: es)) (some 2)), ?_, rfl⟩
    have h := saveSeq_valid_list es [e]
    simpa [saveSeq, save_evaluation, json_loads, json_dumps] using h

/-- C2 counterexample: on a malformed backing file, load_evaluations does not
return the empty list — the parse error propagates (src/utils/evaluation.py
lines 21-24 have no exception handler). -/
theorem C2_load_malformed_counterexample :
    load_evaluations (some (.invalid "corrupt")) = .error "corrupt" ∧
      load_evaluations (some (.invalid "corrupt")) ≠ .ok (.list []) := by
  decide

/-- C2 amended: with a malformed existing file, save_evaluation treats the
prior history as empty and succeeds (its try block swallows the parse error),
while load_evaluations on the same malformed file propagates the parse error
instead of returning the empty list. -/
theorem C2_save_swallows_load_propagates (tag : String) (entry : Entry) :
    save_evaluation (some (.invalid tag)) entry =
        .ok (.jsonDoc (.list [entry]) (some 2)) ∧
      load_evaluations (some (.invalid tag)) = .error tag := by
  exact ⟨by simp [save_evaluation, json_loads, json_dumps], rfl⟩

/-- C9: for every prior backing-file state (missing, empty-or-corrupt
= invalid, or a valid JSON value) and every entry, the interactive
application fallback writer and the evaluation store save_evaluation produce
identical results (same corruption-reset-and-append algorithm, same indent-2
serialization); they differ only in the target file path. -/
theorem C9_fallback_writer_equals_store (file : Option FileContent) (entry : Entry) :
    save_evaluation_local_fallback file entry = save_evaluation file entry ∧
      DATA_FILE ≠ LOCAL_DATA_FILE := by
  exact ⟨rfl, by decide⟩

theorem string_append_assoc (a b c : String) : (a ++ b) ++ c = a ++ (b ++ c) := by
  cases a; cases b; cases c
  show String.mk _ = String.mk _
  simp [String.append]

/-- C3: with no language-model key configured, the backend /translate endpoint
returns the input text unchanged as translated_text (translate_openai raises
on the missing key and the endpoint falls through to the identity
translation); the endpoint is total, so no error ever reaches the caller. -/
theorem C3_translate_endpoint_identity_without_key (key : Option String)
    (hasModelAttr : Bool) (llm : ChatRequest → Except String String)
    (text : String) (h : keyMissing key = true) :
    server_translate key hasModelAttr llm text = ⟨text⟩ := by
  simp [server_translate, translate_openai, translate_local, h]

theorem C3_witness :
    keyMissing none = true ∧
      server_translate none true (fun _ => .error "connection refused") "hola" =
        ⟨"hola"⟩ :=
  ⟨rfl, C3_translate_endpoint_identity_without_key none true
    (fun _ => .error "connection refused") "hola" rfl⟩

/-- C4: the engine translate_local is the identity on every input, and the
application wrapper equals the identity for every import outcome. -/
theorem C4_translate_local_identity (engineImportOk : Bool) (text : String) :
    translate_local text = text ∧ app_translate_local engineImportOk text = text := by
  cases engineImportOk <;> exact ⟨rfl, rfl⟩

/-- C5: generate_local_reply fills the canned template with the given name,
defaulting to Customer on the empty name, and with the first 120 characters of
the translated text as the excerpt; the application wrapper agrees with it
when its first import succeeds; and the excerpt is the whole text whenever the
text has at most 120 characters. -/
theorem C5_generate_local_reply_canned (t name : String) :
    generate_local_reply t name =
        canned_reply_format (if name = "" then "Customer" else name) (t.take 120) ∧
      generate_local_reply t "" = canned_reply_format "Customer" (t.take 120) ∧
      (∀ pOk : Bool, app_generate_local_reply true pOk t name =
        generate_local_reply t name) ∧
      (t.length ≤ 120 → t.take 120 = t) := by
  refine ⟨rfl, rfl, fun _ => rfl, fun h => ?_⟩
  rw [String.take_eq]
  cases t with
  | mk l =>
    simp [String.length] at h
    simp [List.take_of_length_le h]

theorem C5_witness :
    "Hola".length ≤ 120 ∧
      generate_local_reply "Hola" "" = canned_reply_format "Customer" "Hola" := by
  have h := C5_generate_local_reply_canned "Hola" ""
  exact ⟨by decide, by rw [h.2.1, h.2.2.2 (by decide)]⟩

/-- C6 counterexample: the translation engine request at input hi carries the
engine prompt as its single message, and that prompt does not contain (hence
does not equal or start with) the fixed instruction the claim states; the
claimed instruction occurs only in the interactive application prompt. -/
theorem C6_counterexample_engine_prompt :
    (engine_translate_request true "hi").messages.map ChatMessage.content =
        [engine_translate_prompt "hi"] ∧
      strContainsSub (engine_translate_prompt "hi")
        "You are a translator. Translate the following text into clear natural English. Output ONLY the translation." = false ∧
      strContainsSub (app_translate_prompt "hi")
        "You are a translator. Translate the following text into clear natural English. Output ONLY the translation." = true := by
  refine ⟨rfl, by decide, by decide⟩

/-- C6 amended: both language-model translation requests use temperature 0.0,
a 1024 output-token cap and exactly one user-role message embedding the input
text; the interactive application request carries the claimed fixed
instruction, while the engine request carries the engine wording (a high
quality translator variant) instead. -/
theorem C6_request_construction (text : String) (hasModelAttr : Bool) :
    (app_translate_request hasModelAttr text).messages =
        [⟨"user",
          "You are a translator. Translate the following text into clear natural English. Output ONLY the translation." ++
            ("\n\nText:\n" ++ (text ++ "\n\nTranslate into English:"))⟩] ∧
      (app_translate_request hasModelAttr text).temperature = 0 ∧
      (app_translate_request hasModelAttr text).max_tokens = 1024 ∧
      (engine_translate_request hasModelAttr text).messages =
        [⟨"user",
          "You are a high quality translator. Translate the text below into clear natural English and output ONLY the translation." ++
            ("\n\nText:\n" ++ (text ++ "\n\nTranslate into English:"))⟩] ∧
      (engine_translate_request hasModelAttr text).temperature = 0 ∧
      (engine_translate_request hasModelAttr text).max_tokens = 1024 := by
  have happ : app_translate_prompt text =
      "You are a translator. Translate the following text into clear natural English. Output ONLY the translation." ++
        ("\n\nText:\n" ++ (text ++ "\n\nTranslate into English:")) := by
    have hc : ("You are a translator. Translate the following text into clear natural English. Output ONLY the translation." ++
        "\n\nText:\n" : String) =
        "You are a translator. Translate the following text into clear natural English. Output ONLY the translation.\n\nText:\n" := by
      decide
    rw [app_translate_prompt, ← hc, string_append_assoc]
  have heng : engine_translate_prompt text =
      "You are a high quality translator. Translate the text below into clear natural English and output ONLY the translation." ++
        ("\n\nText:\n" ++ (text ++ "\n\nTranslate into English:")) := by
    have hc : ("You are a high quality translator. Translate the text below into clear natural English and output ONLY the translation." ++
        "\n\nText:\n" : String) =
        "You are a high quality translator. Translate the text below into clear natural English and output ONLY the translation.\n\nText:\n" := by
      decide
    rw [engine_translate_prompt, ← hc, string_append_assoc]
  refine ⟨?_, rfl, rfl, ?_, rfl, rfl⟩
  · simp only [app_translate_request]
    rw [happ]
  · simp only [engine_translate_request]
    rw [heng]

/-- C8: language detection is total by construction and returns the sentinel
unknown when the detection library is unavailable or the detector fails on the
given text (empty and undetectable inputs included). -/
theorem C8_detect_language_unknown_on_failure (text : String)
    (f : String → Except String String) (e : String)
    (h : f text = .error e) :
    detect_language_local none text = "unknown" ∧
      detect_language_local (some f) text = "unknown" := by
  exact ⟨rfl, by simp [detect_language_local, h]⟩

theorem C8_witness :
    detect_language_local none "" = "unknown" ∧
      detect_language_local
        (some (fun _ => Except.error "No features in text.")) "" = "unknown" := by
  have h := C8_detect_language_unknown_on_failure ""
      (fun _ => Except.error "No features in text.") "No features in text." rfl
  exact ⟨h.1, h.2⟩

/-- C10: on an HTTP-success response whose parsed JSON object lacks the result
key, call_remote_translate and call_remote_response return the empty string,
not an error. -/
theorem C10_missing_result_key_yields_empty
    (fields1 fields2 : List (String × String))
    (h1 : fields1.lookup "translated_text" = none)
    (h2 : fields2.lookup "reply" = none) :
    call_remote_translate (.ok fields1) = .ok "" ∧
      call_remote_response (.ok fields2) = .ok "" := by
  simp [call_remote_translate, call_remote_response, h1, h2]

theorem C10_witness :
    ([("status", "ok")] : List (String × String)).lookup "translated_text" = none ∧
      (([] : List (String × String)).lookup "reply") = none ∧
      call_remote_translate (Except.ok [("status", "ok")]) = Except.ok "" ∧
      call_remote_response (Except.ok []) = Except.ok "" := by
  have h := C10_missing_result_key_yields_empty [("status", "ok")] []
    (by decide) (by decide)
  exact ⟨by decide, by decide, h.1, h.2⟩

theorem resolve_translation_events_translate_only (key : Option String)
    (hasModelAttr : Bool) (s : Settings) (o : Oracles) (incoming : String) :
    ((resolve_translation key hasModelAttr s o incoming).events.all
      fun e => !e.isReplyEvent) = true := by
  unfold resolve_translation
  repeat' split
  all_goals rfl

/-- C7: in a processed form submission, if the resolved translated text is
empty then no reply-generation strategy is invoked (no recorded strategy event
is a reply event) and the suggested reply remains empty; translation precedes
reply generation by the sequential construction of the handler. -/
theorem C7_empty_translation_skips_reply (key : Option String)
    (hasModelAttr : Bool) (s : Settings) (o : Oracles) (incoming : String)
    (h : (submit_process key hasModelAttr s o incoming).translated = "") :
    (submit_process key hasModelAttr s o incoming).suggested = "" ∧
      ((submit_process key hasModelAttr s o incoming).events.all
        fun e => !e.isReplyEvent) = true := by
  by_cases h1 : (pyStrip incoming == "") = true
  · constructor
    · simp only [submit_process]
      rw [if_pos h1]
    · simp only [submit_process]
      rw [if_pos h1]
      rfl
  · by_cases h2 :
        ((resolve_translation key hasModelAttr s o incoming).translated == "") = true
    · constructor
      · simp only [submit_process]
        rw [if_neg h1, if_pos h2]
      · simp only [submit_process]
        rw [if_neg h1, if_pos h2]
        exact resolve_translation_events_translate_only key hasModelAttr s o incoming
    · exfalso
      simp only [submit_process, h1, h2] at h
      by_cases h3 : s.want_generate = true
      · rw [if_pos h3] at h
        exact h2 (by rw [beq_iff_eq]; exact h)
      · rw [if_neg h3] at h
        exact h2 (by rw [beq_iff_eq]; exact h)

theorem C7_witness :
    (submit_process none true
        ⟨"remote (FastAPI)", "auto", "Canned (template)", true, "", 1/5⟩
        ⟨Except.ok [("translated_text", "")], Except.ok [],
          fun _ => Except.error "down", true, true, true, none⟩
        "hola").translated = "" ∧
      (submit_process none true
        ⟨"remote (FastAPI)", "auto", "Canned (template)", true, "", 1/5⟩
        ⟨Except.ok [("translated_text", "")], Except.ok [],
          fun _ => Except.error "down", true, true, true, none⟩
        "hola").suggested = "" := by
  have h := C7_empty_translation_skips_reply none true
      ⟨"remote (FastAPI)", "auto", "Canned (template)", true, "", 1/5⟩
      ⟨Except.ok [("translated_text", "")], Except.ok [],
        fun _ => Except.error "down", true, true, true, none⟩
      "hola" (by decide)
  exact ⟨by decide, h.1⟩
